import Mathlib

/-!
Shallow embedding of the hito-ocpp-service transaction/session core.

Sources embedded:
- src/src/services/OcppService.ts (startTransaction, stopTransaction,
  resumeTransaction, getActiveTransactions, setChargePointStatus,
  registerChargePoint)
- src/unnamed/part_003 (SimpleOcppServer.handleAction / handleMessage /
  extractCpId / open / close hooks, and OcppController.handleMeterValues /
  handleReconnection)
- src/prisma/migrations/20250922102654_init/migration.sql (the transactions
  table constraints)

Modelling conventions: timestamps (`Date`) are Nat ticks; numeric meter
readings (DOUBLE PRECISION) are Int (no claim depends on fractional values);
the database tables are Lean lists in insertion order; Prisma `findFirst`
without `orderBy` is the first list element matching the filter;
`findFirst` with `orderBy: { startTimestamp: 'desc' }` picks a matching
element with maximal startTimestamp (the tie order between equal timestamps
is unspecified by the database; the model fixes the earliest-inserted one);
Prisma `update` on a missing unique key throws (modelled as an error result
with the P2025 text); JavaScript truthiness tests (`!transactionId`,
`data.idTag`, `data.stopReason ||`) are modelled exactly, so the number 0
and the empty string count as absent where the code tests truthiness.
-/

namespace Ocpp

/-- The `additionalInfo` JSON bag on a transaction row. The resume path of
`OcppService.resumeTransaction` reads/writes the keys `reconnectedAt` and
`reconnectionCount` and spreads the rest unchanged; `rest` models every
other key of the bag. -/
structure Meta where
  reconnectedAt : Option Nat
  reconnectionCount : Option Nat
  rest : List (String × String)
deriving Repr, DecidableEq

/-- A bag with neither reconnection key, as written by start/stop (which set
`additionalInfo` to the incoming request data, containing no reconnection
keys). -/
def emptyMeta : Meta := { reconnectedAt := none, reconnectionCount := none, rest := [] }

/-- A row of the `transactions` table (prisma migration + src/src/types.ts). -/
structure Transaction where
  transactionId : Nat
  cpId : String
  connectorId : Nat
  idTag : String
  meterStart : Option Int
  startTimestamp : Nat
  meterStop : Option Int
  stopTimestamp : Option Nat
  stopReason : Option String
  status : String
  additionalInfo : Meta
deriving Repr, DecidableEq

/-- A row of the `charge_points` table, restricted to the fields the claims
touch (`cp_id` is the primary key; `status` is the connectivity state). -/
structure ChargePoint where
  cpId : String
  status : String
deriving Repr, DecidableEq

/-- The durable state: the transactions table (insertion order), the next
value of the `transaction_id` SERIAL sequence, and the charge_points table. -/
structure St where
  txs : List Transaction
  nextId : Nat
  cps : List ChargePoint
deriving Repr, DecidableEq

/-- Prisma `transaction.findUnique({ where: { transactionId } })` /
`update({ where: { transactionId } })` target: the row with the given id. -/
def txLookup (s : St) (tid : Nat) : Option Transaction :=
  s.txs.find? (fun t => t.transactionId == tid)

/-- Prisma `update({ where: { transactionId } })` row rewrite: apply `g` to
the row(s) keyed by `tid` (the primary key makes at most one match in any
real table). -/
def updateById (g : Transaction → Transaction) (tid : Nat) (l : List Transaction) :
    List Transaction :=
  l.map (fun u => if u.transactionId == tid then g u else u)

/-- The `where` filter of startTransaction's findFirst:
`{ cpId, connectorId, status: 'active' }`. -/
def isActiveOn (cp : String) (conn : Nat) (t : Transaction) : Bool :=
  t.cpId == cp && t.connectorId == conn && t.status == "active"

/-- `prisma.transaction.findFirst` used by startTransaction (no orderBy). -/
def findActive (s : St) (cp : String) (conn : Nat) : Option Transaction :=
  s.txs.find? (isActiveOn cp conn)

/-- `CreateTransactionData` from src/src/types.ts. -/
structure CreateTransactionData where
  cpId : String
  connectorId : Nat
  idTag : String
  meterStart : Option Int
  startTimestamp : Nat
deriving Repr, DecidableEq

/-- The row written by startTransaction's `prisma.transaction.create`. -/
def newTransaction (s : St) (d : CreateTransactionData) : Transaction :=
  { transactionId := s.nextId, cpId := d.cpId, connectorId := d.connectorId,
    idTag := d.idTag, meterStart := d.meterStart,
    startTimestamp := d.startTimestamp, meterStop := none,
    stopTimestamp := none, stopReason := none, status := "active",
    additionalInfo := emptyMeta }

/-- `OcppService.startTransaction` (OcppService.ts lines 78-110): find the
active transaction on the connector; if found with the same idTag return it
unchanged; if found with a different idTag throw the conflict error; else
create a new active row with the next sequential id. -/
def startTransaction (s : St) (d : CreateTransactionData) :
    Except String Transaction × St :=
  match findActive s d.cpId d.connectorId with
  | some existing =>
      if existing.idTag == d.idTag then (.ok existing, s)
      else
        (.error ("Connector " ++ toString d.connectorId ++
          " already has an active transaction"), s)
  | none =>
      let t := newTransaction s d
      (.ok t, { s with txs := s.txs ++ [t], nextId := s.nextId + 1 })

/-- JavaScript truthiness on an optional number: `0` is falsy
(the `if (!transactionId)` test in stopTransaction). -/
def truthyNat : Option Nat → Option Nat
  | some n => if n == 0 then none else some n
  | none => none

/-- JavaScript truthiness on an optional string: `""` is falsy
(the `else if (data.idTag)` and `data.stopReason ||` tests). -/
def truthyStr : Option String → Option String
  | some a => if a == "" then none else some a
  | none => none

/-- The argument record of `OcppService.stopTransaction`. -/
structure StopData where
  transactionId : Option Nat
  cpId : String
  connectorId : Option Nat
  idTag : Option String
  meterStop : Option Int
  stopReason : Option String
deriving Repr, DecidableEq

/-- The `where` filter stopTransaction builds when no (truthy) transactionId
was supplied: always `{ cpId, status: 'active' }`, plus `connectorId` when
that field is present (`!== undefined`, so 0 counts), else plus `idTag` when
that string is truthy. -/
def stopWhere (d : StopData) (t : Transaction) : Bool :=
  t.cpId == d.cpId && t.status == "active" &&
    (match d.connectorId with
     | some c => t.connectorId == c
     | none =>
        match truthyStr d.idTag with
        | some tag => t.idTag == tag
        | none => true)

/-- One step of the `orderBy: { startTimestamp: 'desc' }` findFirst fold:
keep the candidate with the strictly larger startTimestamp. -/
def pickLater (p : Transaction → Bool) (acc : Option Transaction)
    (t : Transaction) : Option Transaction :=
  if p t then
    match acc with
    | none => some t
    | some b => if b.startTimestamp < t.startTimestamp then some t else acc
  else acc

/-- `prisma.transaction.findFirst({ where, orderBy: { startTimestamp: 'desc' } })`:
a matching row with maximal startTimestamp. -/
def findFirstDesc (p : Transaction → Bool) (l : List Transaction) :
    Option Transaction :=
  l.foldl (pickLater p) none

/-- The row rewrite performed by stopTransaction's `prisma.transaction.update`:
meterStop, stopTimestamp := now, stopReason (JS `||`-defaulted to 'Local'),
status := 'completed', additionalInfo := the request data (a bag with no
reconnection keys). -/
def stoppedTx (d : StopData) (now : Nat) (t : Transaction) : Transaction :=
  { t with
    meterStop := d.meterStop
    stopTimestamp := some now
    stopReason := some ((truthyStr d.stopReason).getD "Local")
    status := "completed"
    additionalInfo := emptyMeta }

/-- `prisma.transaction.update({ where: { transactionId } , data: ... })` as
called at the end of stopTransaction; a missing id throws (Prisma P2025). -/
def updateStop (s : St) (now : Nat) (d : StopData) (tid : Nat) :
    Except String Transaction × St :=
  match txLookup s tid with
  | none => (.error "Record to update not found.", s)
  | some t =>
      (.ok (stoppedTx d now t),
       { s with txs := updateById (stoppedTx d now) tid s.txs })

/-- `OcppService.stopTransaction` (OcppService.ts lines 112-154): use the
supplied transactionId when truthy; otherwise resolve the most recently
started active transaction through the `stopWhere` filter, throwing
'No active transaction found to stop' when nothing matches; then update the
resolved row to completed. -/
def stopTransaction (s : St) (now : Nat) (d : StopData) :
    Except String Transaction × St :=
  match truthyNat d.transactionId with
  | some tid => updateStop s now d tid
  | none =>
      match findFirstDesc (stopWhere d) s.txs with
      | none => (.error "No active transaction found to stop", s)
      | some t => updateStop s now d t.transactionId

/-- The row rewrite of `OcppService.resumeTransaction`: spread the current
additionalInfo, set reconnectedAt := now, and increment reconnectionCount
(JS `(x.reconnectionCount || 0) + 1`, which is `getD 0 + 1` since `0 || 0`
is `0`). Status and every other column are untouched. -/
def resumedTx (now : Nat) (t : Transaction) : Transaction :=
  { t with
    additionalInfo :=
      { t.additionalInfo with
        reconnectedAt := some now
        reconnectionCount :=
          some (t.additionalInfo.reconnectionCount.getD 0 + 1) } }

/-- `OcppService.resumeTransaction` (OcppService.ts lines 236-259): findUnique
by id, throw 'Transaction {id} not found' when absent, else merge the
reconnection metadata into the bag. -/
def resumeTransaction (s : St) (now : Nat) (tid : Nat) :
    Except String Transaction × St :=
  match txLookup s tid with
  | none => (.error ("Transaction " ++ toString tid ++ " not found"), s)
  | some t =>
      (.ok (resumedTx now t),
       { s with txs := updateById (resumedTx now) tid s.txs })

/-- `OcppService.getActiveTransactions`: all active rows of a charge point,
ordered by startTimestamp descending (stable sort models the database's
order-by; ties keep insertion order). -/
def getActiveTransactions (s : St) (cp : String) : List Transaction :=
  (s.txs.filter (fun t => t.cpId == cp && t.status == "active")).mergeSort
    (fun a b => decide (b.startTimestamp ≤ a.startTimestamp))

/-- The sequential resume loop of `OcppController.handleReconnection`
(part_003 lines 342-345): resume each id in order; the first failure stops
the loop, leaving the earlier resumes in place, and its error is the result. -/
def resumeList (s : St) (now : Nat) : List Nat → Except String Unit × St
  | [] => (.ok (), s)
  | tid :: rest =>
      match resumeTransaction s now tid with
      | (.ok _, s1) => resumeList s1 now rest
      | (.error e, s1) => (.error e, s1)

/-- `OcppController.handleReconnection` (part_003 lines 334-349): fetch all
active transactions of the charge point, resume them sequentially, return
the fetched list on success and propagate the first resume error. -/
def handleReconnection (s : St) (now : Nat) (cp : String) :
    Except String (List Transaction) × St :=
  match resumeList s now
      ((getActiveTransactions s cp).map (fun t => t.transactionId)) with
  | (.ok _, s1) => (.ok (getActiveTransactions s cp), s1)
  | (.error e, s1) => (.error e, s1)

/-- `OcppService.registerChargePoint` projected onto the modelled columns:
the upsert's update path does not touch `status`, and its create path writes
status 'Available'. -/
def registerChargePoint (s : St) (cp : String) : St :=
  if s.cps.any (fun c => c.cpId == cp) then s
  else { s with cps := s.cps ++ [{ cpId := cp, status := "Available" }] }

/-- `OcppService.setChargePointStatus` (OcppService.ts lines 216-220): the
sentinel cpId 'unknown' runs `updateMany` over every row; any other cpId
runs `update` on the single row with that primary key, throwing (Prisma
P2025) when no such row exists. -/
def setChargePointStatus (s : St) (cp status : String) :
    Except String Unit × St :=
  if cp == "unknown" then
    (.ok (), { s with cps := s.cps.map (fun c => { c with status := status }) })
  else if s.cps.any (fun c => c.cpId == cp) then
    (.ok (),
     { s with cps := s.cps.map (fun c =>
        if c.cpId == cp then { c with status := status } else c) })
  else (.error "Record to update not found.", s)

/-- Character-level model of JavaScript `String.split` with a one-character
separator (written out so that it reduces inside the kernel). -/
def splitOnChar (sep : Char) : List Char → List (List Char)
  | [] => [[]]
  | c :: cs =>
      let rest := splitOnChar sep cs
      if c = sep then [] :: rest
      else
        match rest with
        | r :: rs => (c :: r) :: rs
        | [] => [[c]]

/-- `SimpleOcppServer.extractCpId` (part_003 lines 120-123):
`url.split('/').filter(Boolean)[2] || 'unknown'`. -/
def extractCpId (url : String) : String :=
  (((splitOnChar '/' url.toList).map (fun cs => String.mk cs)).filter
    (fun p => p != "")).getD 2 "unknown"

/-- The status write of the websocket `open` hook (part_003 line 72):
set the extracted charge point id Online. -/
def openHookStatus (s : St) (url : String) : Except String Unit × St :=
  setChargePointStatus s (extractCpId url) "Online"

/-- The status write of the websocket `close` hook (part_003 lines 91-97):
`ws.getUserData().cpId || 'unknown'` set Offline. -/
def closeHookStatus (s : St) (cpIdOpt : Option String) :
    Except String Unit × St :=
  setChargePointStatus s ((truthyStr cpIdOpt).getD "unknown") "Offline"

/-- The seven implemented handlers of `SimpleOcppServer.handleAction`. -/
inductive Handler where
  | bootNotification
  | heartbeat
  | authorize
  | startTx
  | stopTx
  | statusNotification
  | meterValues
deriving Repr, DecidableEq

/-- `SimpleOcppServer.handleAction` (part_003 lines 148-167): route by exact
action string; the default branch throws 'Unsupported action: {action}'. -/
def handleAction (action : String) : Except String Handler :=
  if action = "BootNotification" then .ok .bootNotification
  else if action = "Heartbeat" then .ok .heartbeat
  else if action = "Authorize" then .ok .authorize
  else if action = "StartTransaction" then .ok .startTx
  else if action = "StopTransaction" then .ok .stopTx
  else if action = "StatusNotification" then .ok .statusNotification
  else if action = "MeterValues" then .ok .meterValues
  else .error ("Unsupported action: " ++ action)

/-- A CALLERROR frame `[4, uniqueId, errorCode, errorDescription, {}]`
as built by `SimpleOcppServer.sendError`. -/
structure CallError where
  messageTypeId : Nat
  uniqueId : String
  errorCode : String
  description : String
deriving Repr, DecidableEq

/-- The catch branch of `SimpleOcppServer.handleMessage` (part_003 line 144):
every handler exception, whatever its origin, is rendered as
`sendError(ws, 'unknown', 'InternalError', message)`. -/
def renderHandlerError (e : String) : CallError :=
  { messageTypeId := 4, uniqueId := "unknown", errorCode := "InternalError",
    description := e }

/-- The dispatch outcome of a CALL frame: the chosen handler, or the wire
error frame produced when `handleAction` throws. -/
def dispatchCall (action : String) : Except CallError Handler :=
  match handleAction action with
  | .ok h => .ok h
  | .error e => .error (renderHandlerError e)

/-- One element of a `sampledValue` array (validation schema of part_003's
MeterValuesRequestSchema). -/
structure SampledValue where
  value : String
  measurand : Option String
  phase : Option String
  unit : Option String
deriving Repr, DecidableEq

/-- One element of the `meterValue` array: a timestamp and its sampled
readings. -/
structure MeterValueEntry where
  timestamp : String
  sampledValue : List SampledValue
deriving Repr, DecidableEq

/-- One flattened reading as built by `OcppController.handleMeterValues`. -/
structure FlatReading where
  timestamp : String
  value : String
  measurand : Option String
  phase : Option String
  unit : Option String
deriving Repr, DecidableEq

/-- The reading built for one `(meterValue entry, sampled reading)` pair:
the parent entry's timestamp plus the sampled fields. -/
def flatOf (ts : String) (sv : SampledValue) : FlatReading :=
  { timestamp := ts, value := sv.value, measurand := sv.measurand,
    phase := sv.phase, unit := sv.unit }

/-- The job payload enqueued by `queueMeterValues`. -/
structure MeterValuesJob where
  cpId : String
  connectorId : Nat
  transactionId : Option Nat
  meterValues : List FlatReading
deriving Repr, DecidableEq

/-- `OcppController.handleMeterValues` (part_003 lines 310-332): flatten the
validated entries with `flatMap`/`map` and enqueue the job. -/
def handleMeterValues (cpId : String) (connectorId : Nat)
    (transactionId : Option Nat) (meterValue : List MeterValueEntry) :
    MeterValuesJob :=
  { cpId := cpId, connectorId := connectorId, transactionId := transactionId,
    meterValues :=
      meterValue.flatMap (fun mv => mv.sampledValue.map (flatOf mv.timestamp)) }

/-- The constraints the migration places on the `transactions` table
(migration.sql lines 18-34 and its foreign keys): a primary key on
`transaction_id` and a foreign key `cp_id → charge_points.cp_id`. The
migration declares no other uniqueness constraint — in particular none
involving `connector_id` or `status`. -/
def transactionsTableOk (cps : List ChargePoint) : List Transaction → Bool
  | [] => true
  | t :: rest =>
      rest.all (fun u => u.transactionId != t.transactionId) &&
      cps.any (fun c => c.cpId == t.cpId) &&
      transactionsTableOk cps rest

/-- Two rows do not both hold an active transaction on the same
`(cpId, connectorId)` pair. -/
def conflictFree (a b : Transaction) : Prop :=
  a.status = "active" → b.status = "active" → a.cpId = b.cpId →
    a.connectorId = b.connectorId → False

/-- At most one active transaction per `(cpId, connectorId)` pair. -/
def ExclusiveActive (l : List Transaction) : Prop :=
  l.Pairwise conflictFree

/-- The states reachable from an empty transactions table (the SERIAL
sequence starts at 1) by the state-mutating operations of the service; the
controller entry points factor through these (handleReconnection's state
effect is its own constructor, and is itself a fold of resumes). -/
inductive Reachable : St → Prop where
  | init (cps : List ChargePoint) :
      Reachable { txs := [], nextId := 1, cps := cps }
  | start (s : St) (d : CreateTransactionData) :
      Reachable s → Reachable (startTransaction s d).2
  | stop (s : St) (now : Nat) (d : StopData) :
      Reachable s → Reachable (stopTransaction s now d).2
  | resume (s : St) (now tid : Nat) :
      Reachable s → Reachable (resumeTransaction s now tid).2
  | reconnect (s : St) (now : Nat) (cp : String) :
      Reachable s → Reachable (handleReconnection s now cp).2
  | register (s : St) (cp : String) :
      Reachable s → Reachable (registerChargePoint s cp)
  | setStatus (s : St) (cp st : String) :
      Reachable s → Reachable (setChargePointStatus s cp st).2

/-! ### Helper lemmas -/

theorem find?_map_invariant {α : Type} (f : α → α) (p : α → Bool)
    (hf : ∀ u, p (f u) = p u) (l : List α) :
    (l.map f).find? p = (l.find? p).map f := by
  induction l with
  | nil => rfl
  | cons a l ih =>
      cases h : p a with
      | true =>
          simp only [List.map_cons]
          rw [List.find?_cons_of_pos _ (by rw [hf]; exact h),
            List.find?_cons_of_pos _ h]
          rfl
      | false =>
          simp only [List.map_cons]
          rw [List.find?_cons_of_neg _ (by rw [hf, h]; simp),
            List.find?_cons_of_neg _ (by rw [h]; simp)]
          exact ih

theorem updateById_find? (g : Transaction → Transaction)
    (hg : ∀ u, (g u).transactionId = u.transactionId) (tid x : Nat)
    (l : List Transaction) :
    (updateById g tid l).find? (fun t => t.transactionId == x) =
      (l.find? (fun t => t.transactionId == x)).map
        (fun u => if u.transactionId == tid then g u else u) := by
  apply find?_map_invariant
  intro u
  by_cases h : u.transactionId = tid
  · simp [h, hg]
  · simp [h]

theorem mem_updateById_of_ne {u : Transaction} {l : List Transaction}
    (hu : u ∈ l) {tid : Nat} (hne : u.transactionId ≠ tid)
    (g : Transaction → Transaction) : u ∈ updateById g tid l := by
  have h1 : (fun v : Transaction =>
      if v.transactionId == tid then g v else v) u = u := by
    simp [hne]
  have h2 := List.mem_map_of_mem
    (fun v : Transaction => if v.transactionId == tid then g v else v) hu
  rw [h1] at h2
  exact h2

theorem exclusive_map (f : Transaction → Transaction)
    (hcp : ∀ u, (f u).cpId = u.cpId)
    (hconn : ∀ u, (f u).connectorId = u.connectorId)
    (hst : ∀ u, (f u).status = u.status ∨ (f u).status = "completed")
    {l : List Transaction} (h : ExclusiveActive l) :
    ExclusiveActive (l.map f) := by
  refine List.Pairwise.map f (fun a b hab => ?_) h
  intro h1 h2 h3 h4
  have ha : a.status = "active" := by
    rcases hst a with h' | h'
    · rw [← h']; exact h1
    · rw [h'] at h1; exact absurd h1 (by decide)
  have hb : b.status = "active" := by
    rcases hst b with h' | h'
    · rw [← h']; exact h2
    · rw [h'] at h2; exact absurd h2 (by decide)
  exact hab ha hb (by rw [← hcp a, ← hcp b]; exact h3)
    (by rw [← hconn a, ← hconn b]; exact h4)

theorem foldl_pickLater_acc (p : Transaction → Bool) (l : List Transaction) :
    ∀ acc : Option Transaction, (∀ t ∈ l, p t = false) →
      l.foldl (pickLater p) acc = acc := by
  induction l with
  | nil => intro acc _; rfl
  | cons a l ih =>
      intro acc hall
      rw [List.foldl_cons]
      have ha := hall a (by simp)
      have hstep : pickLater p acc a = acc := by simp [pickLater, ha]
      rw [hstep]
      exact ih acc (fun t ht => hall t (by simp [ht]))

theorem findFirstDesc_eq_none (p : Transaction → Bool) (l : List Transaction)
    (hall : ∀ t ∈ l, p t = false) : findFirstDesc p l = none :=
  foldl_pickLater_acc p l none hall

theorem foldl_pickLater_mem (p : Transaction → Bool) (l : List Transaction) :
    ∀ (acc : Option Transaction) (r : Transaction),
      l.foldl (pickLater p) acc = some r →
      acc = some r ∨ (r ∈ l ∧ p r = true) := by
  induction l with
  | nil => intro acc r h; exact Or.inl h
  | cons a l ih =>
      intro acc r h
      rw [List.foldl_cons] at h
      rcases ih (pickLater p acc a) r h with h' | h'
      · by_cases hp : p a = true
        · rw [pickLater.eq_def, if_pos hp] at h'
          cases acc with
          | none =>
              have : a = r := Option.some.inj h'
              exact Or.inr ⟨by simp [this], this ▸ hp⟩
          | some b =>
              dsimp only at h'
              by_cases hlt : b.startTimestamp < a.startTimestamp
              · rw [if_pos hlt] at h'
                have : a = r := Option.some.inj h'
                exact Or.inr ⟨by simp [this], this ▸ hp⟩
              · rw [if_neg hlt] at h'
                exact Or.inl h'
        · rw [pickLater.eq_def, if_neg hp] at h'
          exact Or.inl h'
      · exact Or.inr ⟨by simp [h'.1], h'.2⟩

theorem findFirstDesc_mem (p : Transaction → Bool) (l : List Transaction)
    (r : Transaction) (h : findFirstDesc p l = some r) :
    r ∈ l ∧ p r = true := by
  rcases foldl_pickLater_mem p l none r h with h' | h'
  · exact absurd h' (by simp)
  · exact h'

theorem findFirstDesc_congr (p q : Transaction → Bool)
    (hpq : ∀ t, p t = q t) (l : List Transaction) :
    findFirstDesc p l = findFirstDesc q l := by
  have haux : ∀ acc, l.foldl (pickLater p) acc = l.foldl (pickLater q) acc := by
    induction l with
    | nil => intro acc; rfl
    | cons a l ih =>
        intro acc
        rw [List.foldl_cons, List.foldl_cons]
        have hstep : pickLater p acc a = pickLater q acc a := by
          simp [pickLater, hpq a]
        rw [hstep, ih]
  exact haux none

/-! ### Concrete states used by witnesses and counterexamples -/

/-- A single active transaction on connector 1 of CP1. -/
def tx1 : Transaction :=
  { transactionId := 1, cpId := "CP1", connectorId := 1, idTag := "A",
    meterStart := some 0, startTimestamp := 5, meterStop := none,
    stopTimestamp := none, stopReason := none, status := "active",
    additionalInfo := emptyMeta }

/-- A state holding exactly `tx1`. -/
def s1 : St :=
  { txs := [tx1], nextId := 2, cps := [{ cpId := "CP1", status := "Online" }] }

/-! ### C2, C3, C5 -/

/-- C2: Idempotent start. When the active transaction found for
`(cpId, connectorId)` carries the request's idTag, startTransaction returns
that transaction and leaves the state unchanged; and from any state with no
active transaction on the connector, starting twice with identical
parameters returns the same transaction (same transactionId) both times,
the second call changes nothing, and exactly one row was created. -/
theorem start_idempotent :
    (∀ (s : St) (d : CreateTransactionData) (ex : Transaction),
      findActive s d.cpId d.connectorId = some ex → ex.idTag = d.idTag →
      startTransaction s d = (.ok ex, s)) ∧
    (∀ (s : St) (d : CreateTransactionData),
      findActive s d.cpId d.connectorId = none →
      ∃ t : Transaction,
        (startTransaction s d).1 = .ok t ∧
        (startTransaction (startTransaction s d).2 d).1 = .ok t ∧
        (startTransaction (startTransaction s d).2 d).2 =
          (startTransaction s d).2 ∧
        (startTransaction s d).2.txs.length = s.txs.length + 1) := by
  constructor
  · intro s d ex hfind htag
    rw [startTransaction.eq_def, hfind]
    simp [htag]
  · intro s d hfind
    have hstep : startTransaction s d =
        (.ok (newTransaction s d),
         { s with txs := s.txs ++ [newTransaction s d], nextId := s.nextId + 1 }) := by
      rw [startTransaction.eq_def, hfind]
    have hkey : findActive (startTransaction s d).2 d.cpId d.connectorId =
        some (newTransaction s d) := by
      rw [hstep]
      show List.find? _ (s.txs ++ [newTransaction s d]) = _
      rw [List.find?_append]
      rw [findActive] at hfind
      rw [hfind]
      simp [isActiveOn, newTransaction]
    refine ⟨newTransaction s d, by rw [hstep], ?_, ?_, by rw [hstep]; simp⟩
    · rw [startTransaction.eq_def, hkey]
      simp [newTransaction]
    · rw [startTransaction.eq_def, hkey]
      simp [newTransaction]

/-- C2 witness: both clauses instantiated on a concrete connector. -/
theorem start_idempotent_witness :
    (findActive s1 "CP1" 1 = some tx1 ∧ tx1.idTag = "A" ∧
      startTransaction s1
        { cpId := "CP1", connectorId := 1, idTag := "A", meterStart := some 7,
          startTimestamp := 9 } = (.ok tx1, s1)) ∧
    (findActive s1 "CP1" 2 = none ∧
      ∃ t : Transaction,
        (startTransaction s1
          { cpId := "CP1", connectorId := 2, idTag := "B", meterStart := some 7,
            startTimestamp := 9 }).1 = .ok t ∧
        (startTransaction (startTransaction s1
          { cpId := "CP1", connectorId := 2, idTag := "B", meterStart := some 7,
            startTimestamp := 9 }).2
          { cpId := "CP1", connectorId := 2, idTag := "B", meterStart := some 7,
            startTimestamp := 9 }).1 = .ok t ∧
        (startTransaction (startTransaction s1
          { cpId := "CP1", connectorId := 2, idTag := "B", meterStart := some 7,
            startTimestamp := 9 }).2
          { cpId := "CP1", connectorId := 2, idTag := "B", meterStart := some 7,
            startTimestamp := 9 }).2 =
          (startTransaction s1
            { cpId := "CP1", connectorId := 2, idTag := "B", meterStart := some 7,
              startTimestamp := 9 }).2 ∧
        (startTransaction s1
          { cpId := "CP1", connectorId := 2, idTag := "B", meterStart := some 7,
            startTimestamp := 9 }).2.txs.length = s1.txs.length + 1) :=
  ⟨⟨rfl, rfl, start_idempotent.1 s1 _ tx1 rfl rfl⟩,
   ⟨rfl, start_idempotent.2 s1 _ rfl⟩⟩

/-- C3: Conflict detection. When the active transaction found for
`(cpId, connectorId)` carries a different idTag than the request,
startTransaction fails with the conflict message (which contains the
connector number) and leaves the state unchanged. -/
theorem start_conflict (s : St) (d : CreateTransactionData) (ex : Transaction)
    (hfind : findActive s d.cpId d.connectorId = some ex)
    (hneq : ex.idTag ≠ d.idTag) :
    startTransaction s d =
      (.error ("Connector " ++ toString d.connectorId ++
        " already has an active transaction"), s) ∧
    ∃ pre post : String,
      "Connector " ++ toString d.connectorId ++
          " already has an active transaction" =
        pre ++ toString d.connectorId ++ post := by
  refine ⟨?_, "Connector ", " already has an active transaction", rfl⟩
  rw [startTransaction.eq_def, hfind]
  simp [hneq]

/-- C3 witness: a concrete conflicting start. -/
theorem start_conflict_witness :
    findActive s1 "CP1" 1 = some tx1 ∧ tx1.idTag ≠ "B" ∧
    startTransaction s1
      { cpId := "CP1", connectorId := 1, idTag := "B", meterStart := some 7,
        startTimestamp := 9 } =
      (.error "Connector 1 already has an active transaction", s1) :=
  ⟨rfl, by decide,
   (start_conflict s1
     { cpId := "CP1", connectorId := 1, idTag := "B", meterStart := some 7,
       startTimestamp := 9 } tx1 rfl (by decide)).1⟩

/-- C5: Stop on nothing fails atomically. With no supplied transactionId and
no row matching the built filter, stopTransaction fails with the not-found
message and returns the state unchanged (every row untouched). -/
theorem stop_nothing_fails (s : St) (now : Nat) (d : StopData)
    (hid : d.transactionId = none)
    (hnone : ∀ t ∈ s.txs, stopWhere d t = false) :
    stopTransaction s now d =
      (.error "No active transaction found to stop", s) := by
  rw [stopTransaction.eq_def, hid]
  dsimp only [truthyNat]
  rw [findFirstDesc_eq_none (stopWhere d) s.txs hnone]

/-- A stop request naming a charge point with no transactions at all. -/
def emptyStop : StopData :=
  { transactionId := none, cpId := "CP9", connectorId := none, idTag := none,
    meterStop := none, stopReason := none }

/-- C5 witness: stopping on a charge point with nothing active. -/
theorem stop_nothing_fails_witness :
    emptyStop.transactionId = none ∧
    (∀ t ∈ s1.txs, stopWhere emptyStop t = false) ∧
    stopTransaction s1 20 emptyStop =
      (.error "No active transaction found to stop", s1) :=
  ⟨rfl, by decide, stop_nothing_fails s1 20 emptyStop rfl (by decide)⟩

/-! ### C4: stop resolution precedence -/

/-- Modelled from the spec's resolution clause (2): an active transaction of
the charge point on the given connector. -/
def activeOnConnector (cp : String) (c : Nat) (t : Transaction) : Bool :=
  t.cpId == cp && t.status == "active" && t.connectorId == c

/-- Modelled from the spec's resolution clause (3): an active transaction of
the charge point under the given idTag. -/
def activeWithTag (cp tag : String) (t : Transaction) : Bool :=
  t.cpId == cp && t.status == "active" && t.idTag == tag

/-- Any active transaction of the charge point (the filter left when neither
connectorId nor a truthy idTag is supplied). -/
def activeOnCp (cp : String) (t : Transaction) : Bool :=
  t.cpId == cp && t.status == "active"

theorem stopWhere_conn (d : StopData) (c : Nat) (h : d.connectorId = some c)
    (t : Transaction) : stopWhere d t = activeOnConnector d.cpId c t := by
  rw [stopWhere, activeOnConnector, h]

theorem stopWhere_tag (d : StopData) (tag : String) (hc : d.connectorId = none)
    (ht : truthyStr d.idTag = some tag) (t : Transaction) :
    stopWhere d t = activeWithTag d.cpId tag t := by
  rw [stopWhere, activeWithTag, hc, ht]

theorem stopWhere_cp (d : StopData) (hc : d.connectorId = none)
    (ht : truthyStr d.idTag = none) (t : Transaction) :
    stopWhere d t = activeOnCp d.cpId t := by
  rw [stopWhere, activeOnCp, hc, ht, Bool.and_true]

/-- C4 (amended): stopTransaction resolves its target in this order: the
explicit transactionId when supplied and nonzero (the code's JavaScript
falsy test treats a supplied 0 as absent); else the most-recently-started
active transaction for (cpId, connectorId) when connectorId is supplied
(connectorId and idTag are never consulted when a nonzero transactionId is
present — the first branch of the equation below ignores them); else the
most-recently-started active transaction for (cpId, idTag) when a nonempty
idTag is supplied (an empty idTag is likewise treated as absent); else any
most-recently-started active transaction of the charge point. On resolution
it marks the row completed, records meterStop and the stop timestamp, and
records stopReason, defaulting to the fixed string 'Local' when the caller
omits one. -/
theorem stop_resolution_precedence (s : St) (now : Nat) (d : StopData) :
    (stopTransaction s now d =
      match truthyNat d.transactionId with
      | some tid => updateStop s now d tid
      | none =>
        match d.connectorId with
        | some c =>
            match findFirstDesc (activeOnConnector d.cpId c) s.txs with
            | none =>
                ((Except.error "No active transaction found to stop" :
                  Except String Transaction), s)
            | some t => updateStop s now d t.transactionId
        | none =>
            match truthyStr d.idTag with
            | some tag =>
                match findFirstDesc (activeWithTag d.cpId tag) s.txs with
                | none =>
                    ((Except.error "No active transaction found to stop" :
                      Except String Transaction), s)
                | some t => updateStop s now d t.transactionId
            | none =>
                match findFirstDesc (activeOnCp d.cpId) s.txs with
                | none =>
                    ((Except.error "No active transaction found to stop" :
                      Except String Transaction), s)
                | some t => updateStop s now d t.transactionId) ∧
    (∀ (tid : Nat) (t : Transaction), txLookup s tid = some t →
      (updateStop s now d tid).1 = .ok (stoppedTx d now t) ∧
      (stoppedTx d now t).transactionId = t.transactionId ∧
      (stoppedTx d now t).status = "completed" ∧
      (stoppedTx d now t).meterStop = d.meterStop ∧
      (stoppedTx d now t).stopTimestamp = some now ∧
      (stoppedTx d now t).stopReason =
        some ((truthyStr d.stopReason).getD "Local") ∧
      (d.stopReason = none → (stoppedTx d now t).stopReason = some "Local")) := by
  constructor
  · rw [stopTransaction.eq_def]
    cases htid : truthyNat d.transactionId with
    | some tid => rfl
    | none =>
        cases hconn : d.connectorId with
        | some c =>
            rw [findFirstDesc_congr (stopWhere d) (activeOnConnector d.cpId c)
              (stopWhere_conn d c hconn) s.txs]
        | none =>
            cases htag : truthyStr d.idTag with
            | some tag =>
                rw [findFirstDesc_congr (stopWhere d) (activeWithTag d.cpId tag)
                  (stopWhere_tag d tag hconn htag) s.txs]
            | none =>
                rw [findFirstDesc_congr (stopWhere d) (activeOnCp d.cpId)
                  (stopWhere_cp d hconn htag) s.txs]
  · intro tid t h
    refine ⟨?_, rfl, rfl, rfl, rfl, rfl, ?_⟩
    · rw [updateStop.eq_def, h]
    · intro h0
      rw [stoppedTx, h0]
      rfl

/-- C4 witness: the completion effects at a concrete resolved transaction. -/
theorem stop_resolution_precedence_witness :
    txLookup s1 1 = some tx1 ∧
    (updateStop s1 20 emptyStop 1).1 = .ok (stoppedTx emptyStop 20 tx1) ∧
    (stoppedTx emptyStop 20 tx1).status = "completed" ∧
    (stoppedTx emptyStop 20 tx1).stopReason = some "Local" :=
  ⟨rfl, ((stop_resolution_precedence s1 20 emptyStop).2 1 tx1 rfl).1,
   ((stop_resolution_precedence s1 20 emptyStop).2 1 tx1 rfl).2.2.1,
   ((stop_resolution_precedence s1 20 emptyStop).2 1 tx1 rfl).2.2.2.2.2.2 rfl⟩

/-- A stop request that explicitly supplies transactionId 0 while also
supplying a connectorId that resolves to transaction 1. -/
def zeroIdStop : StopData :=
  { transactionId := some 0, cpId := "CP1", connectorId := some 1,
    idTag := none, meterStop := some 50, stopReason := none }

/-- C4 counterexample: the claim says a supplied explicit transactionId is
always used to identify the transaction, even when connectorId would resolve
to a different one. With transactionId 0 supplied (a value the
`if (!transactionId)` truthiness test treats as absent), the call does not
match by id — there is no transaction 0 at all — yet it succeeds and stops
transaction 1, resolved through the connectorId instead. -/
theorem zero_transactionId_not_matched_by_id :
    zeroIdStop.transactionId = some 0 ∧
    txLookup s1 0 = none ∧
    (stopTransaction s1 20 zeroIdStop).1 = .ok (stoppedTx zeroIdStop 20 tx1) ∧
    (stoppedTx zeroIdStop 20 tx1).transactionId = 1 :=
  ⟨rfl, rfl, rfl, rfl⟩

/-! ### C6: status monotonicity -/

theorem txLookup_unchanged_of_absent (s : St) (tid0 x : Nat)
    (h0 : txLookup s tid0 = none) (g : Transaction → Transaction) :
    txLookup s x = (txLookup s x).map
      (fun u => if u.transactionId == tid0 then g u else u) := by
  cases hx : txLookup s x with
  | none => rfl
  | some u =>
      have hu : u ∈ s.txs := List.mem_of_find?_eq_some hx
      have hne : (u.transactionId == tid0) = false := by
        rw [txLookup, List.find?_eq_none] at h0
        exact Bool.eq_false_iff.mpr (h0 u hu)
      have hne2 : u.transactionId ≠ tid0 := by simpa using hne
      simp [hne2]

theorem updateStop_lookup (s : St) (now : Nat) (d : StopData) (tid0 x : Nat) :
    txLookup (updateStop s now d tid0).2 x =
      (txLookup s x).map
        (fun u => if u.transactionId == tid0 then stoppedTx d now u else u) := by
  rw [updateStop.eq_def]
  cases h0 : txLookup s tid0 with
  | none => exact txLookup_unchanged_of_absent s tid0 x h0 (stoppedTx d now)
  | some t =>
      dsimp only
      exact updateById_find? (stoppedTx d now) (fun u => rfl) tid0 x s.txs

theorem resume_lookup (s : St) (now tid0 x : Nat) :
    txLookup (resumeTransaction s now tid0).2 x =
      (txLookup s x).map
        (fun u => if u.transactionId == tid0 then resumedTx now u else u) := by
  rw [resumeTransaction.eq_def]
  cases h0 : txLookup s tid0 with
  | none => exact txLookup_unchanged_of_absent s tid0 x h0 (resumedTx now)
  | some t =>
      dsimp only
      exact updateById_find? (resumedTx now) (fun u => rfl) tid0 x s.txs

/-- C6 (amended): status never reverses. Start leaves every existing row in
place, so a completed row stays completed; stop only ever writes the status
'completed', so a completed row stays completed; resume changes no status at
all; and a stop WITHOUT an explicit transactionId can only resolve a
transaction that was active (its filter requires status 'active'). The
original claim's further clause — that no second stop can complete an
already-completed transaction again — fails: a second stop WITH an explicit
transactionId succeeds on a completed row (see the counterexample), though
the status value itself still never leaves 'completed'. -/
theorem status_never_reverses :
    (∀ (s : St) (d : CreateTransactionData) (tid : Nat) (t : Transaction),
      txLookup s tid = some t → t.status = "completed" →
      ∃ t2, txLookup (startTransaction s d).2 tid = some t2 ∧
        t2.status = "completed") ∧
    (∀ (s : St) (now : Nat) (d : StopData) (tid : Nat) (t : Transaction),
      txLookup s tid = some t → t.status = "completed" →
      ∃ t2, txLookup (stopTransaction s now d).2 tid = some t2 ∧
        t2.status = "completed") ∧
    (∀ (s : St) (now tid : Nat),
      (resumeTransaction s now tid).2.txs.map (fun t => t.status) =
        s.txs.map (fun t => t.status)) ∧
    (∀ (s : St) (now : Nat) (d : StopData) (t2 : Transaction),
      d.transactionId = none → (stopTransaction s now d).1 = .ok t2 →
      ∃ t ∈ s.txs, t.transactionId = t2.transactionId ∧
        t.status = "active") := by
  refine ⟨?_, ?_, ?_, ?_⟩
  · intro s d tid t ht hc
    rw [startTransaction.eq_def]
    cases hfind : findActive s d.cpId d.connectorId with
    | some ex =>
        dsimp only
        split
        · exact ⟨t, ht, hc⟩
        · exact ⟨t, ht, hc⟩
    | none =>
        dsimp only
        refine ⟨t, ?_, hc⟩
        show List.find? _ (s.txs ++ [newTransaction s d]) = some t
        rw [List.find?_append]
        rw [txLookup] at ht
        rw [ht]
        rfl
  · intro s now d tid t ht hc
    have key : ∀ tid0, ∃ t2,
        txLookup (updateStop s now d tid0).2 tid = some t2 ∧
        t2.status = "completed" := by
      intro tid0
      rw [updateStop_lookup s now d tid0 tid, ht]
      refine ⟨if t.transactionId == tid0 then stoppedTx d now t else t,
        rfl, ?_⟩
      by_cases h : t.transactionId = tid0
      · simp [h]
        rfl
      · simp [h]
        exact hc
    rw [stopTransaction.eq_def]
    cases truthyNat d.transactionId with
    | some tid0 => exact key tid0
    | none =>
        cases findFirstDesc (stopWhere d) s.txs with
        | none => exact ⟨t, ht, hc⟩
        | some u => exact key u.transactionId
  · intro s now tid
    rw [resumeTransaction.eq_def]
    cases h0 : txLookup s tid with
    | none => rfl
    | some t =>
        dsimp only
        rw [updateById, List.map_map]
        apply List.map_congr_left
        intro u hu
        by_cases h : u.transactionId = tid
        · simp [h, Function.comp, resumedTx]
        · simp [h, Function.comp]
  · intro s now d t2 hid hok
    rw [stopTransaction.eq_def, hid] at hok
    dsimp only [truthyNat] at hok
    cases hfind : findFirstDesc (stopWhere d) s.txs with
    | none =>
        rw [hfind] at hok
        exact absurd hok (by simp)
    | some u =>
        rw [hfind] at hok
        dsimp only at hok
        obtain ⟨hmem, hp⟩ := findFirstDesc_mem _ _ _ hfind
        rw [updateStop.eq_def] at hok
        cases h0 : txLookup s u.transactionId with
        | none =>
            rw [h0] at hok
            exact absurd hok (by simp)
        | some t0 =>
            rw [h0] at hok
            dsimp only at hok
            have ht2 : stoppedTx d now t0 = t2 := Except.ok.inj hok
            have hid0 : t0.transactionId = u.transactionId := by
              have := List.find?_some h0
              simpa using this
            have hact : u.status = "active" := by
              rw [stopWhere] at hp
              simp only [Bool.and_eq_true, beq_iff_eq] at hp
              exact hp.1.2
            exact ⟨u, hmem, by rw [← ht2]; exact hid0.symm, hact⟩

/-- An already-completed transaction with id 1. -/
def doneTx : Transaction :=
  { transactionId := 1, cpId := "CP1", connectorId := 1, idTag := "A",
    meterStart := some 0, startTimestamp := 5, meterStop := some 100,
    stopTimestamp := some 10, stopReason := some "Local",
    status := "completed", additionalInfo := emptyMeta }

/-- A state holding only the completed `doneTx`. -/
def sDone : St :=
  { txs := [doneTx], nextId := 2, cps := [{ cpId := "CP1", status := "Online" }] }

/-- A second stop request naming `doneTx` by explicit transactionId. -/
def secondStop : StopData :=
  { transactionId := some 1, cpId := "CP1", connectorId := none, idTag := none,
    meterStop := some 200, stopReason := some "Remote" }

/-- The row `doneTx` after the second stop rewrites it. -/
def doneTxStopped : Transaction :=
  { doneTx with
    meterStop := some 200
    stopTimestamp := some 20
    stopReason := some "Remote" }

/-- C6 counterexample: a second stop with an explicit transactionId succeeds
on an already-completed transaction — it returns ok and overwrites
meterStop, stopTimestamp and stopReason of the completed row — contradicting
the claim that no second stop can complete an already-completed transaction
again. -/
theorem second_stop_succeeds_on_completed :
    doneTx.status = "completed" ∧
    (stopTransaction sDone 20 secondStop).1 = .ok doneTxStopped ∧
    txLookup (stopTransaction sDone 20 secondStop).2 1 = some doneTxStopped :=
  ⟨rfl, rfl, rfl⟩

/-- C6 witness: a stop on another charge point leaves the completed row
completed. -/
theorem status_never_reverses_witness :
    txLookup sDone 1 = some doneTx ∧ doneTx.status = "completed" ∧
    ∃ t2, txLookup (stopTransaction sDone 20 emptyStop).2 1 = some t2 ∧
      t2.status = "completed" :=
  ⟨rfl, rfl, status_never_reverses.2.1 sDone 20 emptyStop 1 doneTx rfl rfl⟩

/-! ### C1: exclusivity invariant -/

theorem exclusive_updateById (g : Transaction → Transaction)
    (hcp : ∀ u, (g u).cpId = u.cpId)
    (hconn : ∀ u, (g u).connectorId = u.connectorId)
    (hst : ∀ u, (g u).status = u.status ∨ (g u).status = "completed")
    (tid : Nat) {l : List Transaction} (h : ExclusiveActive l) :
    ExclusiveActive (updateById g tid l) := by
  rw [updateById]
  refine exclusive_map _ (fun u => ?_) (fun u => ?_) (fun u => ?_) h
  · split
    · exact hcp u
    · rfl
  · split
    · exact hconn u
    · rfl
  · split
    · exact hst u
    · exact Or.inl rfl

theorem exclusive_start (s : St) (d : CreateTransactionData)
    (h : ExclusiveActive s.txs) :
    ExclusiveActive (startTransaction s d).2.txs := by
  rw [startTransaction.eq_def]
  cases hfind : findActive s d.cpId d.connectorId with
  | some ex =>
      dsimp only
      split
      · exact h
      · exact h
  | none =>
      dsimp only
      rw [ExclusiveActive, List.pairwise_append]
      refine ⟨h, List.pairwise_singleton _ _, ?_⟩
      intro a ha b hb
      rw [List.mem_singleton] at hb
      subst hb
      intro h1 h2 h3 h4
      rw [findActive, List.find?_eq_none] at hfind
      apply hfind a ha
      rw [isActiveOn]
      simp only [newTransaction] at h3 h4
      simp [h1, h3, h4]

theorem exclusive_updateStop (s : St) (now : Nat) (d : StopData) (tid : Nat)
    (h : ExclusiveActive s.txs) :
    ExclusiveActive (updateStop s now d tid).2.txs := by
  rw [updateStop.eq_def]
  cases h0 : txLookup s tid with
  | none => exact h
  | some t =>
      dsimp only
      exact exclusive_updateById (stoppedTx d now) (fun u => rfl) (fun u => rfl)
        (fun u => Or.inr rfl) tid h

theorem exclusive_stop (s : St) (now : Nat) (d : StopData)
    (h : ExclusiveActive s.txs) :
    ExclusiveActive (stopTransaction s now d).2.txs := by
  rw [stopTransaction.eq_def]
  cases truthyNat d.transactionId with
  | some tid => exact exclusive_updateStop s now d tid h
  | none =>
      cases findFirstDesc (stopWhere d) s.txs with
      | none => exact h
      | some u => exact exclusive_updateStop s now d u.transactionId h

theorem exclusive_resume (s : St) (now tid : Nat)
    (h : ExclusiveActive s.txs) :
    ExclusiveActive (resumeTransaction s now tid).2.txs := by
  rw [resumeTransaction.eq_def]
  cases h0 : txLookup s tid with
  | none => exact h
  | some t =>
      dsimp only
      exact exclusive_updateById (resumedTx now) (fun u => rfl) (fun u => rfl)
        (fun u => Or.inl rfl) tid h

theorem resumeList_cons (s : St) (now j : Nat) (rest : List Nat) :
    resumeList s now (j :: rest) =
      match resumeTransaction s now j with
      | (.ok _, s1) => resumeList s1 now rest
      | (.error e, s1) => (.error e, s1) := rfl

theorem exclusive_resumeList (now : Nat) (ids : List Nat) :
    ∀ s : St, ExclusiveActive s.txs →
      ExclusiveActive (resumeList s now ids).2.txs := by
  induction ids with
  | nil => intro s h; exact h
  | cons j rest ih =>
      intro s h
      rw [resumeList_cons]
      cases hres : resumeTransaction s now j with
      | mk r s1 =>
          have h1 : ExclusiveActive s1.txs := by
            have := exclusive_resume s now j h
            rw [hres] at this
            exact this
          cases r with
          | ok t => exact ih s1 h1
          | error e => exact h1

theorem exclusive_reconnect (s : St) (now : Nat) (cp : String)
    (h : ExclusiveActive s.txs) :
    ExclusiveActive (handleReconnection s now cp).2.txs := by
  rw [handleReconnection]
  cases hres : resumeList s now
      ((getActiveTransactions s cp).map (fun t => t.transactionId)) with
  | mk r s1 =>
      have h1 : ExclusiveActive s1.txs := by
        have := exclusive_resumeList now
          ((getActiveTransactions s cp).map (fun t => t.transactionId)) s h
        rw [hres] at this
        exact this
      cases r with
      | ok t => exact h1
      | error e => exact h1

theorem register_txs (s : St) (cp : String) :
    (registerChargePoint s cp).txs = s.txs := by
  rw [registerChargePoint]
  split
  · rfl
  · rfl

theorem setStatus_txs (s : St) (cp st : String) :
    (setChargePointStatus s cp st).2.txs = s.txs := by
  rw [setChargePointStatus]
  split
  · rfl
  · split
    · rfl
    · rfl

/-- C1 (amended): in the sequential model, every reachable state has at most
one active transaction per (cpId, connectorId) pair, and every operation
preserves this: startTransaction creates a row only when no active
transaction exists on the connector (otherwise it returns the existing one
or fails with a conflict), stop only completes rows, and resume touches no
status. The original claim's further clause — that the persistence layer,
not only the in-memory check, is the final arbiter against duplicate active
transactions — fails: the migration declares no uniqueness constraint over
active transactions (see the counterexample), so the in-memory
find-then-create check is the only guard. -/
theorem reachable_exclusive_active (s : St) (h : Reachable s) :
    ExclusiveActive s.txs := by
  induction h with
  | init cps => exact List.Pairwise.nil
  | start s d _ ih => exact exclusive_start s d ih
  | stop s now d _ ih => exact exclusive_stop s now d ih
  | resume s now tid _ ih => exact exclusive_resume s now tid ih
  | reconnect s now cp _ ih => exact exclusive_reconnect s now cp ih
  | register s cp _ ih =>
      rw [register_txs]
      exact ih
  | setStatus s cp st _ ih =>
      rw [setStatus_txs]
      exact ih

/-- C1 witness: the invariant holds at a concrete reachable state obtained
by one start from the initial state. -/
theorem reachable_exclusive_active_witness :
    ExclusiveActive (startTransaction { txs := [], nextId := 1, cps := [] }
      { cpId := "CP1", connectorId := 1, idTag := "A", meterStart := some 0,
        startTimestamp := 5 }).2.txs :=
  reachable_exclusive_active _ (Reachable.start _ _ (Reachable.init []))

/-- A second active transaction on the same (cpId, connectorId) as `tx1`. -/
def dupTx : Transaction :=
  { transactionId := 2, cpId := "CP1", connectorId := 1, idTag := "B",
    meterStart := some 0, startTimestamp := 6, meterStop := none,
    stopTimestamp := none, stopReason := none, status := "active",
    additionalInfo := emptyMeta }

/-- C1 counterexample: the transactions table of the migration (primary key
on transaction_id, foreign key on cp_id, and nothing more) accepts a table
holding two active transactions on the same (cpId, connectorId) pair — the
persistence layer as migrated cannot act as the final arbiter against
duplicate active transactions; only the in-memory check in startTransaction
prevents them. -/
theorem schema_admits_duplicate_active :
    transactionsTableOk [{ cpId := "CP1", status := "Online" }] [tx1, dupTx] =
      true ∧
    ¬ ExclusiveActive [tx1, dupTx] := by
  refine ⟨rfl, fun h => ?_⟩
  rcases List.pairwise_cons.mp h with ⟨h1, _⟩
  exact h1 dupTx (List.mem_singleton.mpr rfl) rfl rfl rfl rfl

/-! ### C7: MeterValues flattening -/

/-- C7: the flattened list the handler enqueues contains exactly one reading
per (meterValue entry, sampled reading) pair: its length is the sum of the
entries' sampledValue lengths, and a flat reading is in the job exactly when
it is the flattening of some sampled reading of some entry, carrying that
parent entry's timestamp. -/
theorem metervalues_flattening (cp : String) (cid : Nat) (tid : Option Nat)
    (entries : List MeterValueEntry) :
    (handleMeterValues cp cid tid entries).meterValues.length =
      (entries.map (fun mv => mv.sampledValue.length)).sum ∧
    ∀ f : FlatReading,
      f ∈ (handleMeterValues cp cid tid entries).meterValues ↔
      ∃ mv ∈ entries, ∃ sv ∈ mv.sampledValue, f = flatOf mv.timestamp sv := by
  constructor
  · show (entries.flatMap
      (fun mv => mv.sampledValue.map (flatOf mv.timestamp))).length = _
    rw [List.length_flatMap]
    congr 1
    apply List.map_congr_left
    intro mv _
    exact List.length_map _ _
  · intro f
    show f ∈ entries.flatMap
      (fun mv => mv.sampledValue.map (flatOf mv.timestamp)) ↔ _
    rw [List.mem_flatMap]
    constructor
    · rintro ⟨mv, hmv, hf⟩
      rw [List.mem_map] at hf
      obtain ⟨sv, hsv, hfe⟩ := hf
      exact ⟨mv, hmv, sv, hsv, hfe.symm⟩
    · rintro ⟨mv, hmv, sv, hsv, hfe⟩
      exact ⟨mv, hmv, List.mem_map.mpr ⟨sv, hsv, hfe.symm⟩⟩

/-- Two meter-value entries with 2 and 1 sampled readings. -/
def demoEntries : List MeterValueEntry :=
  [{ timestamp := "T1", sampledValue :=
      [{ value := "10", measurand := none, phase := none, unit := none },
       { value := "11", measurand := none, phase := none, unit := none }] },
   { timestamp := "T2", sampledValue :=
      [{ value := "12", measurand := none, phase := none, unit := none }] }]

/-- C7 witness: 2 entries with 2 and 1 sampled readings flatten to exactly 3
readings, each carrying its parent entry's timestamp. -/
theorem metervalues_flattening_witness :
    (handleMeterValues "CP1" 1 none demoEntries).meterValues.length = 3 ∧
    (handleMeterValues "CP1" 1 none demoEntries).meterValues.map
      (fun f => f.timestamp) = ["T1", "T1", "T2"] :=
  ⟨(metervalues_flattening "CP1" 1 none demoEntries).1.trans rfl, rfl⟩

/-! ### C9: unknown action dispatch -/

/-- C9 (amended): every action string other than the seven implemented ones
makes handleAction throw an error carrying the unrecognized action name
('Unsupported action: {action}'); the catch-all of handleMessage renders
that on the wire as a CALLERROR with errorCode 'InternalError' — the very
same class used for every uncaught handler failure, there being no separate
NotImplemented code — and each of the seven known actions is dispatched to
exactly one handler. -/
theorem unknown_action_dispatch :
    (∀ a : String, a ≠ "BootNotification" → a ≠ "Heartbeat" →
      a ≠ "Authorize" → a ≠ "StartTransaction" → a ≠ "StopTransaction" →
      a ≠ "StatusNotification" → a ≠ "MeterValues" →
      handleAction a = .error ("Unsupported action: " ++ a) ∧
      dispatchCall a = .error
        { messageTypeId := 4, uniqueId := "unknown",
          errorCode := "InternalError",
          description := "Unsupported action: " ++ a }) ∧
    dispatchCall "BootNotification" = .ok .bootNotification ∧
    dispatchCall "Heartbeat" = .ok .heartbeat ∧
    dispatchCall "Authorize" = .ok .authorize ∧
    dispatchCall "StartTransaction" = .ok .startTx ∧
    dispatchCall "StopTransaction" = .ok .stopTx ∧
    dispatchCall "StatusNotification" = .ok .statusNotification ∧
    dispatchCall "MeterValues" = .ok .meterValues ∧
    (∀ e : String, (renderHandlerError e).errorCode = "InternalError") := by
  refine ⟨?_, rfl, rfl, rfl, rfl, rfl, rfl, rfl, fun e => rfl⟩
  intro a h1 h2 h3 h4 h5 h6 h7
  have hact : handleAction a = .error ("Unsupported action: " ++ a) := by
    rw [handleAction, if_neg h1, if_neg h2, if_neg h3, if_neg h4, if_neg h5,
      if_neg h6, if_neg h7]
  refine ⟨hact, ?_⟩
  rw [dispatchCall, hact]
  rfl

/-- C9 witness: the unknown action 'Reset'. -/
theorem unknown_action_dispatch_witness :
    handleAction "Reset" = .error "Unsupported action: Reset" ∧
    dispatchCall "Reset" = .error
      { messageTypeId := 4, uniqueId := "unknown",
        errorCode := "InternalError",
        description := "Unsupported action: Reset" } :=
  unknown_action_dispatch.1 "Reset" (by decide) (by decide) (by decide)
    (by decide) (by decide) (by decide) (by decide)

/-- C9 counterexample: the claim says unknown actions are rendered with a
not-implemented errorCode distinct from the internal-error class used for
uncaught failures. In the code the frame for an unknown action carries
errorCode 'InternalError' — identical to the errorCode rendered for any
other uncaught failure — so no distinct NotImplemented-class wire code
exists. -/
theorem unknown_action_rendered_as_internal_error :
    dispatchCall "Reset" =
      .error (renderHandlerError "Unsupported action: Reset") ∧
    (renderHandlerError "Unsupported action: Reset").errorCode =
      "InternalError" ∧
    (renderHandlerError "some uncaught database failure").errorCode =
      "InternalError" :=
  ⟨rfl, rfl, rfl⟩

/-! ### C10: sentinel broadcast -/

theorem setStatus_unknown_all (s : St) (st : String) :
    ((setChargePointStatus s "unknown" st).2.cps.map (fun c => c.cpId) =
      s.cps.map (fun c => c.cpId)) ∧
    ∀ c ∈ (setChargePointStatus s "unknown" st).2.cps, c.status = st := by
  constructor
  · show (s.cps.map fun c => { c with status := st }).map (fun c => c.cpId) =
      s.cps.map (fun c => c.cpId)
    rw [List.map_map]
    rfl
  · intro c hc
    rw [show (setChargePointStatus s "unknown" st).2.cps =
      s.cps.map (fun c => { c with status := st }) from rfl,
      List.mem_map] at hc
    obtain ⟨c0, _, hc0⟩ := hc
    rw [← hc0]

/-- C10: setChargePointStatus with the sentinel cpId 'unknown' updates the
status of every charge-point row (same row set, every status overwritten);
for any other cpId it succeeds exactly when a row with that id exists and
then rewrites precisely the rows keyed by that cpId (the primary key makes
that one row), leaving every other row unchanged; consequently the open and
close hooks of a connection whose identity could not be resolved from the
path (extractCpId yields 'unknown') set every charge point Online
respectively Offline. -/
theorem sentinel_broadcast :
    (∀ (s : St) (st : String),
      ((setChargePointStatus s "unknown" st).2.cps.map (fun c => c.cpId) =
        s.cps.map (fun c => c.cpId)) ∧
      ∀ c ∈ (setChargePointStatus s "unknown" st).2.cps, c.status = st) ∧
    (∀ (s : St) (cp st : String), cp ≠ "unknown" →
      (∃ c ∈ s.cps, c.cpId = cp) →
      (setChargePointStatus s cp st).1 = .ok () ∧
      (setChargePointStatus s cp st).2.cps.length = s.cps.length ∧
      (∀ c ∈ s.cps, c.cpId = cp →
        { c with status := st } ∈ (setChargePointStatus s cp st).2.cps) ∧
      (∀ c ∈ s.cps, c.cpId ≠ cp →
        c ∈ (setChargePointStatus s cp st).2.cps)) ∧
    (∀ (s : St) (url : String), extractCpId url = "unknown" →
      ∀ c ∈ (openHookStatus s url).2.cps, c.status = "Online") ∧
    (∀ s : St, ∀ c ∈ (closeHookStatus s none).2.cps, c.status = "Offline") := by
  refine ⟨setStatus_unknown_all, ?_, ?_, ?_⟩
  · intro s cp st hne hex
    have hbeq : (cp == "unknown") = false := by
      simpa using hne
    have hany : (s.cps.any (fun c => c.cpId == cp)) = true := by
      rw [List.any_eq_true]
      obtain ⟨c, hc, hcp⟩ := hex
      exact ⟨c, hc, by simpa using hcp⟩
    have hres : setChargePointStatus s cp st =
        (.ok (),
         { s with cps := s.cps.map (fun c =>
            if c.cpId == cp then { c with status := st } else c) }) := by
      rw [setChargePointStatus, hbeq]
      simp [hany]
    rw [hres]
    refine ⟨rfl, List.length_map _ _, ?_, ?_⟩
    · intro c hc hcp
      have := List.mem_map_of_mem
        (fun c : ChargePoint =>
          if c.cpId == cp then { c with status := st } else c) hc
      simpa [hcp] using this
    · intro c hc hcp
      have := List.mem_map_of_mem
        (fun c : ChargePoint =>
          if c.cpId == cp then { c with status := st } else c) hc
      simpa [hcp] using this
  · intro s url hurl
    rw [openHookStatus, hurl]
    exact (setStatus_unknown_all s "Online").2
  · intro s
    exact (setStatus_unknown_all s "Offline").2

/-- Two charge points, neither of them named 'unknown'. -/
def cpsTwo : St :=
  { txs := [], nextId := 1,
    cps := [{ cpId := "CP1", status := "Offline" },
            { cpId := "CP2", status := "Available" }] }

/-- C10 witness: the sentinel sets both rows; a named update succeeds on an
existing row; an unresolvable path broadcasts Online on open. -/
theorem sentinel_broadcast_witness :
    (∀ c ∈ (setChargePointStatus cpsTwo "unknown" "Offline").2.cps,
      c.status = "Offline") ∧
    (setChargePointStatus cpsTwo "CP1" "Online").1 = .ok () ∧
    extractCpId "/v1/ocpp" = "unknown" ∧
    (∀ c ∈ (openHookStatus cpsTwo "/v1/ocpp").2.cps, c.status = "Online") :=
  ⟨(sentinel_broadcast.1 cpsTwo "Offline").2,
   (sentinel_broadcast.2.1 cpsTwo "CP1" "Online" (by decide)
     ⟨{ cpId := "CP1", status := "Offline" }, by simp [cpsTwo], rfl⟩).1,
   by decide,
   sentinel_broadcast.2.2.1 cpsTwo "/v1/ocpp" (by decide)⟩

/-! ### C8: partial resume on reconnection -/

theorem resume_lookup_isSome (s : St) (now tid0 x : Nat) :
    (txLookup (resumeTransaction s now tid0).2 x).isSome =
      (txLookup s x).isSome := by
  rw [resume_lookup]
  cases txLookup s x <;> rfl

theorem resume_lookup_none (s : St) (now tid0 x : Nat)
    (h : txLookup s x = none) :
    txLookup (resumeTransaction s now tid0).2 x = none := by
  rw [resume_lookup, h]
  rfl

theorem resumeList_partial (now : Nat) (ids1 : List Nat) :
    ∀ (s : St) (tid : Nat) (ids2 : List Nat),
      (∀ j ∈ ids1, (txLookup s j).isSome = true) →
      txLookup s tid = none →
      resumeList s now (ids1 ++ tid :: ids2) =
        (.error ("Transaction " ++ toString tid ++ " not found"),
         (resumeList s now ids1).2) ∧
      (resumeList s now ids1).1 = .ok () := by
  induction ids1 with
  | nil =>
      intro s tid ids2 _ hnone
      refine ⟨?_, rfl⟩
      rw [List.nil_append, resumeList_cons, resumeTransaction.eq_def, hnone]
      rfl
  | cons j rest ih =>
      intro s tid ids2 hall hnone
      have hj := hall j (List.mem_cons_self j rest)
      obtain ⟨t, ht⟩ := Option.isSome_iff_exists.mp hj
      have hok : resumeTransaction s now j =
          (.ok (resumedTx now t),
           { s with txs := updateById (resumedTx now) j s.txs }) := by
        rw [resumeTransaction.eq_def, ht]
      have hstep : ∀ L, resumeList s now (j :: L) =
          resumeList (resumeTransaction s now j).2 now L := by
        intro L
        rw [resumeList_cons, hok]
      have hall1 : ∀ k ∈ rest,
          (txLookup (resumeTransaction s now j).2 k).isSome = true := by
        intro k hk
        rw [resume_lookup_isSome]
        exact hall k (List.mem_cons_of_mem j hk)
      have hnone1 : txLookup (resumeTransaction s now j).2 tid = none :=
        resume_lookup_none s now j tid hnone
      obtain ⟨h1, h2⟩ := ih (resumeTransaction s now j).2 tid ids2 hall1 hnone1
      constructor
      · rw [List.cons_append, hstep, hstep, h1]
      · rw [hstep, h2]

/-- C8: Partial resume on reconnection. handleReconnection fetches exactly
the active transactions of the charge point ordered most-recent-first (same
membership and count as the active rows, sorted by startTimestamp
descending) and resumes them sequentially. Each successful resume merges a
reconnection timestamp into the metadata bag, increments the reconnection
counter (starting at 1 when absent), preserves every other key of the bag,
never changes status, and leaves all other rows in place; a resume of a
vanished row fails with 'Transaction {id} not found' and changes nothing.
When the k-th resume of the sequence fails this way, the resulting state is
exactly the state after the first k-1 resumes — no rollback — and the error
is the result; handleReconnection propagates a resumeList error verbatim and
returns the fetched list on success. -/
theorem reconnection_partial_resume :
    (∀ (s : St) (cp : String),
      (∀ t : Transaction, t ∈ getActiveTransactions s cp ↔
        t ∈ s.txs ∧ t.cpId = cp ∧ t.status = "active") ∧
      (getActiveTransactions s cp).length =
        (s.txs.filter (fun t => t.cpId == cp && t.status == "active")).length ∧
      List.Pairwise (fun a b : Transaction =>
        b.startTimestamp ≤ a.startTimestamp) (getActiveTransactions s cp)) ∧
    (∀ (s : St) (now tid : Nat) (t : Transaction), txLookup s tid = some t →
      (resumeTransaction s now tid).1 = .ok (resumedTx now t) ∧
      txLookup (resumeTransaction s now tid).2 tid = some (resumedTx now t) ∧
      (resumedTx now t).additionalInfo.reconnectedAt = some now ∧
      (resumedTx now t).additionalInfo.reconnectionCount =
        some (t.additionalInfo.reconnectionCount.getD 0 + 1) ∧
      (resumedTx now t).additionalInfo.rest = t.additionalInfo.rest ∧
      (resumedTx now t).status = t.status ∧
      ∀ u ∈ s.txs, u.transactionId ≠ tid →
        u ∈ (resumeTransaction s now tid).2.txs) ∧
    (∀ (s : St) (now tid : Nat), txLookup s tid = none →
      resumeTransaction s now tid =
        (.error ("Transaction " ++ toString tid ++ " not found"), s)) ∧
    (∀ (now : Nat) (ids1 : List Nat) (s : St) (tid : Nat) (ids2 : List Nat),
      (∀ j ∈ ids1, (txLookup s j).isSome = true) →
      txLookup s tid = none →
      resumeList s now (ids1 ++ tid :: ids2) =
        (.error ("Transaction " ++ toString tid ++ " not found"),
         (resumeList s now ids1).2) ∧
      (resumeList s now ids1).1 = .ok ()) ∧
    (∀ (s : St) (now : Nat) (cp : String) (s1 : St),
      resumeList s now
        ((getActiveTransactions s cp).map (fun t => t.transactionId)) =
        (.ok (), s1) →
      handleReconnection s now cp = (.ok (getActiveTransactions s cp), s1)) ∧
    (∀ (s : St) (now : Nat) (cp : String) (e : String) (s1 : St),
      resumeList s now
        ((getActiveTransactions s cp).map (fun t => t.transactionId)) =
        (.error e, s1) →
      handleReconnection s now cp = (.error e, s1)) := by
  refine ⟨?_, ?_, ?_, resumeList_partial, ?_, ?_⟩
  · intro s cp
    refine ⟨?_, ?_, ?_⟩
    · intro t
      rw [getActiveTransactions, (List.mergeSort_perm _ _).mem_iff,
        List.mem_filter]
      simp [Bool.and_eq_true, beq_iff_eq, and_assoc]
    · rw [getActiveTransactions]
      exact (List.mergeSort_perm _ _).length_eq
    · have htrans : ∀ a b c : Transaction,
          (decide (b.startTimestamp ≤ a.startTimestamp)) = true →
          (decide (c.startTimestamp ≤ b.startTimestamp)) = true →
          (decide (c.startTimestamp ≤ a.startTimestamp)) = true := by
        intro a b c hab hbc
        simp only [decide_eq_true_eq] at hab hbc ⊢
        exact Nat.le_trans hbc hab
      have htotal : ∀ a b : Transaction,
          ((decide (b.startTimestamp ≤ a.startTimestamp)) ||
           (decide (a.startTimestamp ≤ b.startTimestamp))) = true := by
        intro a b
        simp only [Bool.or_eq_true, decide_eq_true_eq]
        exact Nat.le_total _ _
      have hs := @List.sorted_mergeSort Transaction
        (fun a b => decide (b.startTimestamp ≤ a.startTimestamp))
        htrans htotal
        (s.txs.filter (fun t => t.cpId == cp && t.status == "active"))
      rw [getActiveTransactions]
      exact hs.imp (fun h => by simpa using h)
  · intro s now tid t ht
    have hres : resumeTransaction s now tid =
        (.ok (resumedTx now t),
         { s with txs := updateById (resumedTx now) tid s.txs }) := by
      rw [resumeTransaction.eq_def, ht]
    have hbeq : (t.transactionId == tid) = true := by
      have ht2 := ht
      rw [txLookup] at ht2
      exact @List.find?_some Transaction
        (fun u => u.transactionId == tid) t s.txs ht2
    refine ⟨by rw [hres], ?_, rfl, rfl, rfl, rfl, ?_⟩
    · rw [resume_lookup s now tid tid, ht]
      show some (if t.transactionId == tid then resumedTx now t else t) =
        some (resumedTx now t)
      rw [if_pos hbeq]
    · intro u hu hne
      rw [hres]
      exact mem_updateById_of_ne hu hne _
  · intro s now tid h
    rw [resumeTransaction.eq_def, h]
  · intro s now cp s1 h
    rw [handleReconnection.eq_def, h]
  · intro s now cp e s1 h
    rw [handleReconnection.eq_def, h]

/-- C8 witness: resuming the stale id list [1, 99] on a state that only
holds transaction 1 resumes transaction 1, then fails on 99 with no
rollback. -/
theorem reconnection_partial_resume_witness :
    (∀ j ∈ [1], (txLookup s1 j).isSome = true) ∧
    txLookup s1 99 = none ∧
    (resumeList s1 20 ([1] ++ 99 :: []) =
      (.error ("Transaction " ++ toString (99 : Nat) ++ " not found"),
       (resumeList s1 20 [1]).2) ∧
     (resumeList s1 20 [1]).1 = .ok ()) :=
  ⟨by decide, rfl,
   reconnection_partial_resume.2.2.2.1 20 [1] s1 99 [] (by decide) rfl⟩
